import Mathlib

/-!
Shallow embedding of the request/session/error pipeline of the `wda` client
(`wda/__init__.py`): the `_fetch` transport and response classifier, the
retry-decorated operations, the session-identifier state machine, session
creation/close, URL derivation, the callback registry, and the alert
watcher's polling logic.

Decoded JSON bodies are modelled as `Jval`; response-envelope objects as
association lists `List (String × Jval)` with Python dict semantics (unique
keys, `get`/`pop`/`setdefault` modelled below).  Exception values raised by
the pipeline are modelled by `FetchErr`; the module `wda/exceptions.py` is
not among the sources, so the per-kind `check` predicates and the class
hierarchy are modelled from the spec where noted.
-/

set_option autoImplicit false

namespace Wda

/-- A decoded JSON value (the shapes the pipeline inspects). -/
inductive Jval where
  | null
  | bool (b : Bool)
  | num (n : Int)
  | str (s : String)
  | obj (fields : List (String × Jval))
deriving Repr

/-- Python `dict.get`: first binding of `key` in the association list. -/
def jlookup : List (String × Jval) → String → Option Jval
  | [], _ => none
  | (k, v) :: rest, key => if k = key then some v else jlookup rest key

/-- Python `dict.pop(key, None)`: drop the binding of `key`. -/
def jerase : List (String × Jval) → String → List (String × Jval)
  | [], _ => []
  | (k, v) :: rest, key =>
      if k = key then jerase rest key else (k, v) :: jerase rest key

/-- Python `dict.setdefault(key, v)`: add `key ↦ v` when `key` is absent. -/
def jsetdefault (d : List (String × Jval)) (key : String) (v : Jval) :
    List (String × Jval) :=
  if (jlookup d key).isSome then d else d ++ [(key, v)]

/-- Python truthiness of a JSON value. -/
def jtruthy : Jval → Bool
  | .null => false
  | .bool b => b
  | .num n => n != 0
  | .str s => s != ""
  | .obj fields => !fields.isEmpty

/-- Python truthiness of `dict.get key` (absent key is falsy). -/
def jtruthyOpt : Option Jval → Bool
  | none => false
  | some v => jtruthy v

/-- The `error` field of an error value, as a string (`""` otherwise). -/
def errStr (value : List (String × Jval)) : String :=
  match jlookup value "error" with
  | some (.str s) => s
  | _ => ""

/-- The `message` field of an error value, as a string (`""` otherwise). -/
def msgStr (value : List (String × Jval)) : String :=
  match jlookup value "message" with
  | some (.str s) => s
  | _ => ""

/-- Whether `pat` matches at the head of the character list. -/
def subAt : List Char → List Char → Bool
  | [], _ => true
  | _ :: _, [] => false
  | a :: as, b :: bs => a == b && subAt as bs

/-- Whether `pat` occurs somewhere in the character list. -/
def hasSub (pat : List Char) : List Char → Bool
  | [] => pat.isEmpty
  | c :: rest => subAt pat (c :: rest) || hasSub pat rest

/-- Whether `pat` occurs as a substring of `s` (Python `pat in s`). -/
def strContains (s pat : String) : Bool :=
  hasSub pat.data s.data

/-- The closed set of remote-reported error kinds raised by the response
classifier, in the source's terms: the five specific `WDARequestError`
subclasses plus the generic fallback. -/
inductive ErrKind where
  | invalidSessionId
  | possiblyCrashed
  | keyboardNotPresent
  | staleElementReference
  | unknown
  | generic
deriving DecidableEq, Repr

/-- The exception values that `BaseClient._fetch` can raise:
`WDAError` (network fault or undecodable body), `WDABadGateway` (HTTP 502),
`WDAEmptyResponseError` (blank body), and the `WDARequestError` family
(remote-reported logical failures, tagged with an `ErrKind`). -/
inductive FetchErr where
  | wdaError (method url message : String)
  | badGateway (statusCode : Nat) (text : String)
  | emptyResponse (method url : String)
  | requestError (kind : ErrKind) (status : Int) (value : List (String × Jval))
deriving Repr

/-- The Python exception class name of a `FetchErr`, for branching by kind. -/
def errClass : FetchErr → String
  | .wdaError .. => "WDAError"
  | .badGateway .. => "WDABadGateway"
  | .emptyResponse .. => "WDAEmptyResponseError"
  | .requestError k .. =>
      match k with
      | .invalidSessionId => "WDAInvalidSessionIdError"
      | .possiblyCrashed => "WDAPossiblyCrashedError"
      | .keyboardNotPresent => "WDAKeyboardNotPresentError"
      | .staleElementReference => "WDAStaleElementReferenceError"
      | .unknown => "WDAUnknownError"
      | .generic => "WDARequestError"

/-- The constant `Status.ERROR`, the fixed client-side status code passed to every
classifier-raised error (`wda/__init__.py` line 139 and 276). -/
def Status.ERROR : Int := 110

/-- Modelled from the spec: `wda/exceptions.py` is not among the sources.
`WDAInvalidSessionIdError.check` — the remote reports the session id is
invalid/not found; the predicate inspects the `error` code. -/
def checkInvalidSessionId (value : List (String × Jval)) : Bool :=
  errStr value == "invalid session id"

/-- Modelled from the spec: `wda/exceptions.py` is not among the sources.
`WDAPossiblyCrashedError.check` — the remote reports the target application
process is gone; the predicate inspects the `message` substring. -/
def checkPossiblyCrashed (value : List (String × Jval)) : Bool :=
  strContains (msgStr value) "possibly crashed"

/-- Modelled from the spec: `wda/exceptions.py` is not among the sources.
`WDAKeyboardNotPresentError.check` — the remote reports no software keyboard
is shown; the predicate inspects the `message` substring. -/
def checkKeyboardNotPresent (value : List (String × Jval)) : Bool :=
  strContains (msgStr value) "Keyboard is not present"

/-- Modelled from the spec: `wda/exceptions.py` is not among the sources.
`WDAStaleElementReferenceError.check` — the remote reports a
previously-located element reference is no longer valid. -/
def checkStaleElementReference (value : List (String × Jval)) : Bool :=
  errStr value == "stale element reference"

/-- Modelled from the spec: `wda/exceptions.py` is not among the sources.
`WDAUnknownError.check` — the remote reports an internal error with no more
specific classification. -/
def checkUnknown (value : List (String × Jval)) : Bool :=
  errStr value == "unknown error"

/-- The fixed, ordered list of kind predicates tried by `_fetch`
(`wda/__init__.py` lines 280-288). -/
def errClsList : List (ErrKind × (List (String × Jval) → Bool)) :=
  [(.invalidSessionId, checkInvalidSessionId),
   (.possiblyCrashed, checkPossiblyCrashed),
   (.keyboardNotPresent, checkKeyboardNotPresent),
   (.staleElementReference, checkStaleElementReference),
   (.unknown, checkUnknown)]

/-- The classifier's `for err_cls in (...): if err_cls.check(value): raise`
loop with its `WDARequestError` fallback (`wda/__init__.py` lines 280-290):
the first matching predicate wins. -/
def classifyValue (status : Int) (value : List (String × Jval)) : FetchErr :=
  match errClsList.find? (fun p => p.2 value) with
  | some p => .requestError p.1 status value
  | none => .requestError .generic status value

/-- The raw outcome of one HTTP exchange, as seen by `_fetch`: either a
`requests.RequestException`, or a response with status code, body text and
the body's JSON decoding (`none` when the body is not valid JSON). -/
inductive RawResponse where
  | netFail (message : String)
  | httpOk (statusCode : Nat) (text : String)
      (body : Option (List (String × Jval)))

/-- Python `not resp.text.strip()`: the body is empty or whitespace-only. -/
def pyBlank (s : String) : Bool :=
  s.data.all Char.isWhitespace

/-- Python `resp.text[:100]`: the first 100 characters of the body. -/
def pyTake100 (s : String) : String :=
  String.mk (s.data.take 100)

/-- The transport stage of `BaseClient._fetch` (`wda/__init__.py` lines
245-272): network fault → `WDAError`; 502 → `WDABadGateway`; blank body →
`WDAEmptyResponseError`; undecodable body → `WDAError` with a truncated
body excerpt; otherwise the decoded object with `status` defaulted to 0. -/
def fetchTransport (method url : String) (r : RawResponse) :
    Except FetchErr (List (String × Jval)) :=
  match r with
  | .netFail msg => .error (.wdaError method url msg)
  | .httpOk code text body =>
      if code = 502 then .error (.badGateway code text)
      else if pyBlank text then .error (.emptyResponse method url)
      else
        match body with
        | none => .error (.wdaError method url (pyTake100 text ++ "..."))
        | some retjson => .ok (jsetdefault retjson "status" (.num 0))

/-- The classification stage of `BaseClient._fetch` (`wda/__init__.py` lines
274-292): when `value` is a dict with a truthy `error` field, pop
`traceback` and raise the classified error with `Status.ERROR`. -/
def processEnvelope (rj : List (String × Jval)) :
    Except FetchErr (List (String × Jval)) :=
  match jlookup rj "value" with
  | some (.obj d) =>
      if jtruthyOpt (jlookup d "error") then
        .error (classifyValue Status.ERROR (jerase d "traceback"))
      else .ok rj
  | _ => .ok rj

/-- The whole of `BaseClient._fetch` after the HTTP exchange: transport
mapping followed by response classification. -/
def fetch (method url : String) (r : RawResponse) :
    Except FetchErr (List (String × Jval)) :=
  (fetchTransport method url r).bind processEnvelope

/-! ### Retry policy -/

/-- Python `isinstance(e, WDAEmptyResponseError)`. -/
def isWDAEmptyResponseError : FetchErr → Bool
  | .emptyResponse .. => true
  | _ => false

/-- Python `isinstance(e, WDAUnknownError)`. -/
def isWDAUnknownError : FetchErr → Bool
  | .requestError .unknown .. => true
  | _ => false

/-- Python `isinstance(e, WDAKeyboardNotPresentError)`. -/
def isWDAKeyboardNotPresentError : FetchErr → Bool
  | .requestError .keyboardNotPresent .. => true
  | _ => false

/-- Python `isinstance(e, WDARequestError)` (any member of the classified family). -/
def isWDARequestError : FetchErr → Bool
  | .requestError .. => true
  | _ => false

/-- The parameters of one `@retry.retry(...)` decoration: which exception
class triggers a retry, the total number of attempts, and the delay and
jitter between attempts in milliseconds. -/
structure RetryPolicy where
  retryOn : FetchErr → Bool
  tries : Nat
  delayMs : Nat
  jitterMs : Nat

/-- The decoration `@retry.retry(exceptions=WDAEmptyResponseError, tries=3, delay=2)`
on `BaseClient.status` (`wda/__init__.py` line 218). -/
def statusRetry : RetryPolicy :=
  { retryOn := isWDAEmptyResponseError, tries := 3, delayMs := 2000,
    jitterMs := 0 }

/-- The decoration `@retry.retry(WDAUnknownError, tries=3, delay=.5, jitter=.2)`
on `BaseClient.app_current` (`wda/__init__.py` line 337). -/
def appCurrentRetry : RetryPolicy :=
  { retryOn := isWDAUnknownError, tries := 3, delayMs := 500,
    jitterMs := 200 }

/-- The decoration `@retry.retry(WDAKeyboardNotPresentError, tries=3, delay=1.0)`
on `BaseClient.send_keys` (`wda/__init__.py` line 870). -/
def sendKeysRetry : RetryPolicy :=
  { retryOn := isWDAKeyboardNotPresentError, tries := 3, delayMs := 1000,
    jitterMs := 0 }

/-- The complete list of `@retry.retry`-decorated operations in
`wda/__init__.py` (lines 218, 337, 870) — no other method carries the
decorator. -/
def retriedOperations : List (String × RetryPolicy) :=
  [("status", statusRetry),
   ("app_current", appCurrentRetry),
   ("send_keys", sendKeysRetry)]

/-- Modelled from the spec: the semantics of the third-party `retry.retry`
decorator (the `retry` package is not among the sources) — run the wrapped
call; on an exception of the configured class with attempts remaining,
sleep and run it again; any other exception, or exhaustion of the attempt
budget, re-raises the last exception unchanged.  `op i` is the outcome of
the `i`-th underlying call; returns the final outcome together with the
number of calls made. -/
def retryRun {α : Type} (p : FetchErr → Bool) (op : Nat → Except FetchErr α) :
    Nat → Nat → Except FetchErr α × Nat
  | 0, i => (op i, 1)
  | 1, i => (op i, 1)
  | n + 2, i =>
      match op i with
      | .ok v => (.ok v, 1)
      | .error e =>
          if p e then
            let r := retryRun p op (n + 1) (i + 1)
            (r.1, r.2 + 1)
          else (.error e, 1)

/-- A retry-decorated operation: run `op` under the policy's exception
class and attempt budget, starting from the first call. -/
def runWithRetry {α : Type} (pol : RetryPolicy)
    (op : Nat → Except FetchErr α) : Except FetchErr α × Nat :=
  retryRun pol.retryOn op pol.tries 0

/-- Method `BaseClient.tap` (`wda/__init__.py` lines 712-718): posts `wda/tap`,
and on any exception at all falls back to a second automatic attempt
against the legacy endpoint `wda/tap/0`. -/
def tap (post : String → Except FetchErr (List (String × Jval))) :
    Except FetchErr (List (String × Jval)) :=
  match post "wda/tap" with
  | .ok v => .ok v
  | .error _ => post "wda/tap/0"

/-! ### URL derivation -/

/-- Python `url.endswith("/")` as used by `BaseClient.__init__`. -/
def pyEndsWithSlash (s : String) : Bool :=
  s.data.getLast? == some '/'

/-- The base-URL normalization of `BaseClient.__init__` (`wda/__init__.py`
lines 177-181): append `"/"` unless the url already ends with it. -/
def wdaUrlOf (url : String) : String :=
  if pyEndsWithSlash url then url else url ++ "/"

/-- Python `urllib.parse.urljoin` in the configuration `_fetch` uses it: the base
ends in `"/"` and the joined path is relative (no scheme, not starting with
`"/"`); the empty path yields the base itself. -/
def urljoinRel (base rel : String) : String :=
  if rel = "" then base else base ++ rel

/-- The request URL of a base-scoped call (`_fetch` with
`with_session=False`, `wda/__init__.py` line 237). -/
def requestUrl (wdaUrl urlpath : String) : String :=
  urljoinRel wdaUrl urlpath

/-- The request URL of a session-scoped call (`_fetch` with
`with_session=True`, `wda/__init__.py` lines 233-235). -/
def sessionRequestUrl (wdaUrl sid urlpath : String) : String :=
  urljoinRel (urljoinRel wdaUrl ("session/" ++ sid ++ "/")) urlpath

/-! ### Session identifier state machine -/

/-- Python truthiness of an optional session-id string (`None` and `""`
are falsy). -/
def pyTruthyStr : Option String → Bool
  | none => false
  | some s => s != ""

/-- Outcome of one read of the `session_id` property: the id returned, the
cached id afterwards, and how many status probes and session-creation calls
the read issued. -/
structure SessionIdRead where
  result : String
  newCached : Option String
  statusProbes : Nat
  sessionCreates : Nat
deriving DecidableEq, Repr

/-- The `session_id` property (`wda/__init__.py` lines 511-519): a cached
id is returned at once; otherwise a status probe is issued, a truthy probed
id is cached and returned, and a falsy probed id triggers one
session-creation call whose fresh id is returned (the original client's
cache is left unchanged on that path — `session()` returns a new client
carrying the fresh id). -/
def session_id_read (cached : Option String) (probeSid : Option String)
    (createdId : String) : SessionIdRead :=
  if pyTruthyStr cached then
    { result := cached.getD "", newCached := cached,
      statusProbes := 0, sessionCreates := 0 }
  else if pyTruthyStr probeSid then
    { result := probeSid.getD "", newCached := probeSid,
      statusProbes := 1, sessionCreates := 0 }
  else
    { result := createdId, newCached := cached,
      statusProbes := 1, sessionCreates := 1 }

/-- Comparison with a number on a JSON value (Python `res.value != 4` negated): the
`XCUIApplicationState` foreground-running code tested by `session()`. -/
def jvalEqNum (v : Jval) (n : Int) : Bool :=
  match v with
  | .num m => m == n
  | _ => false

/-- The error-recovery tail of `BaseClient.session` (`wda/__init__.py`
lines 470-482): on success the new client is bound to the response's
session id; on `WDAEmptyResponseError` the manager queries the app's
run-state under a fresh session and either binds to that query's session id
(state confirmed foreground, value = 4) or re-raises the original error;
any other exception propagates untouched.  Returns the outcome together
with whether the fallback run-state query was issued. -/
def sessionCreateOutcome (post : Except FetchErr String)
    (fallbackValue : Jval) (fallbackSid : String) :
    Except FetchErr String × Bool :=
  match post with
  | .ok sid => (.ok sid, false)
  | .error (.emptyResponse m u) =>
      if jvalEqNum fallbackValue 4 then (.ok fallbackSid, true)
      else (.error (.emptyResponse m u), true)
  | .error e => (.error e, false)

/-- Method `BaseClient.close` (`wda/__init__.py` lines 489-495): DELETE the
session root; swallow `WDAInvalidSessionIdError` and
`WDAPossiblyCrashedError` (returning `none`), re-raise anything else. -/
def close (deleteResult : Except FetchErr (List (String × Jval))) :
    Except FetchErr (Option (List (String × Jval))) :=
  match deleteResult with
  | .ok v => .ok (some v)
  | .error (.requestError k s v) =>
      if k = .invalidSessionId ∨ k = .possiblyCrashed then .ok none
      else .error (.requestError k s v)
  | .error e => .error e

/-- The full flow of `close()` on a client (`__exit__` calls it too): the
DELETE path first resolves the `session_id` property — probing and possibly
creating a session when unbound — then issues the DELETE against the
session-scoped root URL. -/
def closeFlow (cached : Option String) (probeSid : Option String)
    (createdId : String) (wdaUrl : String)
    (deleteResult : Except FetchErr (List (String × Jval))) :
    SessionIdRead × String × Except FetchErr (Option (List (String × Jval))) :=
  let sid := session_id_read cached probeSid createdId
  (sid, sessionRequestUrl wdaUrl sid.result "", close deleteResult)

/-! ### Callback registry -/

/-- Constant `Callback.ERROR` (`wda/__init__.py` line 143). -/
def Callback.ERROR : String := "::error"

/-- Constant `Callback.HTTP_REQUEST_BEFORE` (`wda/__init__.py` line 144). -/
def Callback.HTTP_REQUEST_BEFORE : String := "::http-request-before"

/-- Constant `Callback.HTTP_REQUEST_AFTER` (`wda/__init__.py` line 145). -/
def Callback.HTTP_REQUEST_AFTER : String := "::http-request-after"

/-- Assignment `self.__callbacks = defaultdict(list)` (`wda/__init__.py` line 184):
the registry a freshly constructed client carries — empty. -/
def initialCallbacks : List (String × List String) := []

/-- Assignment `client.__callbacks = self.__callbacks` (`wda/__init__.py` line 481):
the client returned by `session()` shares the parent's registry. -/
def sessionClientCallbacks (parent : List (String × List String)) :
    List (String × List String) :=
  parent

/-- The callback invocations performed by `BaseClient._fetch` during one
request (`wda/__init__.py` lines 225-292).  The method contains no
reference to the callback registry: `__callbacks` is created empty in
`__init__`, copied by `session()`, and never read or invoked anywhere in
`wda/__init__.py`, so the invocation trace of a request is empty whatever
the registry holds and however the exchange goes. -/
def fetchCallbackInvocations (_registry : List (String × List String))
    (_r : RawResponse) : List String :=
  []

/-! ### Alert watcher -/

/-- Constant `Alert.DEFAULT_ACCEPT_BUTTONS` (`wda/__init__.py` lines 958-961). -/
def Alert.DEFAULT_ACCEPT_BUTTONS : List String :=
  ["使用App时允许", "无线局域网与蜂窝网络", "好", "稍后", "稍后提醒", "确定",
   "允许", "以后", "打开", "录屏", "Allow", "OK", "YES", "Yes", "Later",
   "Close"]

/-- Line `if not buttons: buttons = self.DEFAULT_ACCEPT_BUTTONS`
(`wda/__init__.py` lines 1052-1053): a falsy caller argument (absent or
empty list) falls back to the built-in default allow-list. -/
def chooseButtons (buttons : Option (List String)) : List String :=
  match buttons with
  | none => Alert.DEFAULT_ACCEPT_BUTTONS
  | some bs => if bs.isEmpty then Alert.DEFAULT_ACCEPT_BUTTONS else bs

/-- What one polling tick of the watcher did. -/
inductive TickResult where
  | clicked (button : String)
  | noClick
  | swallowed
  | crashed
deriving DecidableEq, Repr

/-- One iteration body of `watch_and_click`'s `_inner` loop
(`wda/__init__.py` lines 1058-1071): query the alert buttons, click the
first allow-list entry present (at most one click), log unhandled
otherwise; a `WDARequestError` from the tick is swallowed; any other
exception escapes the `try` and kills the watcher thread. -/
def watchTick (allow : List String)
    (poll : Except FetchErr (List String)) : TickResult :=
  match poll with
  | .ok alertButtons =>
      match allow.find? (fun b => alertButtons.contains b) with
      | some b => .clicked b
      | none => .noClick
  | .error e => if isWDARequestError e then .swallowed else .crashed

/-- The watcher loop over a scripted sequence of polls: each tick runs
`watchTick`; a swallowed error lets the loop continue, an unclassified
exception terminates the thread. -/
def watchRun (allow : List String) :
    List (Except FetchErr (List String)) → List TickResult
  | [] => []
  | poll :: rest =>
      match watchTick allow poll with
      | .crashed => [.crashed]
      | t => t :: watchRun allow rest

/-- The watcher under the stop event: `while not event.is_set()` is checked
before every tick, so once the event is set after `stopAfter` ticks, no
further polling tick begins — only the first `stopAfter` scripted polls are
ever consumed. -/
def watchWithStop (allow : List String)
    (script : List (Except FetchErr (List String))) (stopAfter : Nat) :
    List TickResult :=
  watchRun allow (script.take stopAfter)

/-! ## Supporting lemmas -/

/-- Popping a key removes it: the cleaned value has no binding of `key`. -/
theorem jlookup_jerase_self (d : List (String × Jval)) (key : String) :
    jlookup (jerase d key) key = none := by
  induction d with
  | nil => rfl
  | cons kv rest ih =>
      obtain ⟨k, v⟩ := kv
      by_cases h : k = key
      · simp [jerase, h, ih]
      · simp [jerase, jlookup, h, ih]

/-- The classifier's loop equals first-match over the fixed predicate order
with the generic fallback. -/
theorem classifyValue_first_match (s : Int) (v : List (String × Jval)) :
    classifyValue s v = .requestError
      (if checkInvalidSessionId v then .invalidSessionId
       else if checkPossiblyCrashed v then .possiblyCrashed
       else if checkKeyboardNotPresent v then .keyboardNotPresent
       else if checkStaleElementReference v then .staleElementReference
       else if checkUnknown v then .unknown
       else .generic) s v := by
  cases h1 : checkInvalidSessionId v <;>
    cases h2 : checkPossiblyCrashed v <;>
      cases h3 : checkKeyboardNotPresent v <;>
        cases h4 : checkStaleElementReference v <;>
          cases h5 : checkUnknown v <;>
            simp [classifyValue, errClsList, List.find?, h1, h2, h3, h4, h5]

/-- The watcher loop never runs more ticks than it has scripted polls. -/
theorem watchRun_length_le (allow : List String)
    (script : List (Except FetchErr (List String))) :
    (watchRun allow script).length ≤ script.length := by
  induction script with
  | nil => simp [watchRun]
  | cons poll rest ih =>
      simp only [watchRun]
      cases watchTick allow poll <;> simp [List.length_cons] <;> omega

/-! ## Claims -/

/-- C1 (amended): for a decoded envelope whose `value` is a mapping with a
truthy `error` field, `_fetch` raises exactly one error kind, the first of
InvalidSessionId, PossiblyCrashed, KeyboardNotPresent,
StaleElementReference, Unknown whose predicate matches, with the generic
RequestError as fallback; the raised value excludes any `traceback` field;
every raised error carries the fixed client-side status `Status.ERROR`
(110), not the envelope's own `status` field. -/
theorem C1_error_classification (method url text : String) (code : Nat)
    (rj d : List (String × Jval))
    (hcode : code ≠ 502) (htext : pyBlank text = false)
    (hval : jlookup (jsetdefault rj "status" (Jval.num 0)) "value"
      = some (.obj d))
    (herr : jtruthyOpt (jlookup d "error") = true) :
    fetch method url (.httpOk code text (some rj)) =
      .error (.requestError
        (if checkInvalidSessionId (jerase d "traceback") then
          .invalidSessionId
         else if checkPossiblyCrashed (jerase d "traceback") then
          .possiblyCrashed
         else if checkKeyboardNotPresent (jerase d "traceback") then
          .keyboardNotPresent
         else if checkStaleElementReference (jerase d "traceback") then
          .staleElementReference
         else if checkUnknown (jerase d "traceback") then .unknown
         else .generic)
        Status.ERROR (jerase d "traceback")) ∧
    jlookup (jerase d "traceback") "traceback" = none := by
  constructor
  · have h1 : fetchTransport method url (.httpOk code text (some rj))
        = .ok (jsetdefault rj "status" (Jval.num 0)) := by
      simp [fetchTransport, hcode, htext]
    simp [fetch, h1, Except.bind, processEnvelope, hval, herr,
      classifyValue_first_match]
  · exact jlookup_jerase_self d "traceback"

/-- C1 witness: a concrete envelope carrying an `unknown error` code and a
`traceback` field is classified as the Unknown kind with the traceback
stripped. -/
theorem C1_error_classification_witness :
    pyBlank "body" = false ∧
    (fetch "POST" "http://localhost:8100/wda/keys"
        (.httpOk 200 "body"
          (some [("value", Jval.obj
            [("error", Jval.str "unknown error"),
             ("traceback", Jval.str "tb")])])) =
      .error (.requestError
        (if checkInvalidSessionId
            (jerase [("error", Jval.str "unknown error"),
                     ("traceback", Jval.str "tb")] "traceback") then
          .invalidSessionId
         else if checkPossiblyCrashed
            (jerase [("error", Jval.str "unknown error"),
                     ("traceback", Jval.str "tb")] "traceback") then
          .possiblyCrashed
         else if checkKeyboardNotPresent
            (jerase [("error", Jval.str "unknown error"),
                     ("traceback", Jval.str "tb")] "traceback") then
          .keyboardNotPresent
         else if checkStaleElementReference
            (jerase [("error", Jval.str "unknown error"),
                     ("traceback", Jval.str "tb")] "traceback") then
          .staleElementReference
         else if checkUnknown
            (jerase [("error", Jval.str "unknown error"),
                     ("traceback", Jval.str "tb")] "traceback") then
          .unknown
         else .generic)
        Status.ERROR
        (jerase [("error", Jval.str "unknown error"),
                 ("traceback", Jval.str "tb")] "traceback")) ∧
      jlookup (jerase [("error", Jval.str "unknown error"),
                       ("traceback", Jval.str "tb")] "traceback") "traceback"
        = none) :=
  ⟨by decide,
   C1_error_classification "POST" "http://localhost:8100/wda/keys" "body" 200
     [("value", Jval.obj [("error", Jval.str "unknown error"),
                          ("traceback", Jval.str "tb")])]
     [("error", Jval.str "unknown error"), ("traceback", Jval.str "tb")]
     (by decide) (by decide) rfl rfl⟩

/-- C1 counterexample: the claim says the generic RequestError carries the
remote `status`; on an envelope whose remote status is 7 the raised error
carries the fixed 110 instead. -/
theorem C1_remote_status_counterexample :
    fetch "POST" "http://localhost:8100/url"
      (.httpOk 200 "body"
        (some [("status", Jval.num 7),
               ("value", Jval.obj [("error", Jval.str "bogus failure"),
                                   ("traceback", Jval.str "tb")])])) =
      .error (.requestError .generic 110
        [("error", Jval.str "bogus failure")]) ∧
    jlookup [("status", Jval.num 7),
             ("value", Jval.obj [("error", Jval.str "bogus failure"),
                                 ("traceback", Jval.str "tb")])] "status"
      = some (Jval.num 7) ∧
    (110 : Int) ≠ 7 := by
  refine ⟨rfl, rfl, by decide⟩

/-- C2 (amended): the `@retry.retry` decorator is applied to exactly three
operations — `status` (on EmptyResponseError, 3 tries, 2 s), `app_current`
(on UnknownError, 3 tries, 0.5 s with 0.2 s jitter) and `send_keys` (on
KeyboardNotPresentError, 3 tries, 1 s) — and retry exhaustion re-raises the
last typed error unchanged after exactly 3 attempts, while a non-matching
error propagates after a single attempt; however `tap` additionally makes
one automatic fallback attempt against the legacy endpoint `wda/tap/0` on
any exception from `wda/tap`, so a typed error from its first request does
not propagate on first occurrence. -/
theorem C2_retry_policy (e e2 : FetchErr)
    (v : List (String × Jval))
    (he : isWDAKeyboardNotPresentError e = true)
    (he2 : isWDAKeyboardNotPresentError e2 = false) :
    retriedOperations.map Prod.fst = ["status", "app_current", "send_keys"] ∧
    statusRetry.retryOn = isWDAEmptyResponseError ∧
    statusRetry.tries = 3 ∧ statusRetry.delayMs = 2000 ∧
    appCurrentRetry.retryOn = isWDAUnknownError ∧
    appCurrentRetry.tries = 3 ∧ appCurrentRetry.delayMs = 500 ∧
    appCurrentRetry.jitterMs = 200 ∧
    sendKeysRetry.retryOn = isWDAKeyboardNotPresentError ∧
    sendKeysRetry.tries = 3 ∧ sendKeysRetry.delayMs = 1000 ∧
    runWithRetry sendKeysRetry (fun _ => (.error e : Except FetchErr Unit))
      = (.error e, 3) ∧
    runWithRetry sendKeysRetry (fun _ => (.error e2 : Except FetchErr Unit))
      = (.error e2, 1) ∧
    tap (fun p => if p = "wda/tap" then .error e else .ok v) = .ok v := by
  refine ⟨rfl, rfl, rfl, rfl, rfl, rfl, rfl, rfl, rfl, rfl, rfl, ?_, ?_, ?_⟩
  · simp [runWithRetry, sendKeysRetry, retryRun, he]
  · simp [runWithRetry, sendKeysRetry, retryRun, he2]
  · simp [tap]

/-- C2 witness: concrete retryable and non-retryable errors. -/
theorem C2_retry_policy_witness :
    isWDAKeyboardNotPresentError
      (.requestError .keyboardNotPresent 110 []) = true ∧
    isWDAKeyboardNotPresentError (.emptyResponse "POST" "u") = false ∧
    runWithRetry sendKeysRetry
      (fun _ => (.error (.requestError .keyboardNotPresent 110 []) :
        Except FetchErr Unit))
      = (.error (.requestError .keyboardNotPresent 110 []), 3) :=
  ⟨by decide, by decide,
   ((((((((((((C2_retry_policy
     (.requestError .keyboardNotPresent 110 [])
     (.emptyResponse "POST" "u") []
     (by decide) (by decide)).2).2).2).2).2).2).2).2).2).2).2).1⟩

/-- C2 counterexample: the claim says no operation beyond the three listed
is retried automatically and typed errors otherwise propagate unchanged;
`tap` is a fourth operation that, on a typed InvalidSessionId error from
its first request, automatically issues a second request and swallows the
error. -/
theorem C2_tap_counterexample :
    tap (fun p => if p = "wda/tap"
      then .error (.requestError .invalidSessionId 110 [])
      else .ok []) = .ok [] ∧
    (fun p => if p = "wda/tap"
      then .error (.requestError .invalidSessionId 110 [])
      else (.ok [] : Except FetchErr (List (String × Jval)))) "wda/tap"
      = .error (.requestError .invalidSessionId 110 []) ∧
    retriedOperations.map Prod.fst = ["status", "app_current", "send_keys"]
    := by
  refine ⟨by simp [tap], by simp, rfl⟩

/-- C3 (confirmed): reading `session_id` returns a cached id with no remote
call; otherwise it probes status once, binds to and caches a truthy probed
id with no creation call (so a second read issues no further probe), and
issues exactly one session-creation call when the probe reports no id,
returning the newly issued id. -/
theorem C3_session_id_read (cached probeSid probeSid2 : Option String)
    (createdId createdId2 : String) :
    (pyTruthyStr cached = true →
      session_id_read cached probeSid createdId
        = ⟨cached.getD "", cached, 0, 0⟩) ∧
    (pyTruthyStr cached = false → pyTruthyStr probeSid = true →
      session_id_read cached probeSid createdId
        = ⟨probeSid.getD "", probeSid, 1, 0⟩ ∧
      session_id_read (session_id_read cached probeSid createdId).newCached
          probeSid2 createdId2
        = ⟨probeSid.getD "", probeSid, 0, 0⟩) ∧
    (pyTruthyStr cached = false → pyTruthyStr probeSid = false →
      session_id_read cached probeSid createdId
        = ⟨createdId, cached, 1, 1⟩) := by
  refine ⟨?_, ?_, ?_⟩
  · intro h; simp [session_id_read, h]
  · intro h1 h2
    constructor
    · simp [session_id_read, h1, h2]
    · simp [session_id_read, h1, h2]
  · intro h1 h2; simp [session_id_read, h1, h2]

/-- C3 witness: an unbound client whose probe reports session id `"abc"`
binds to it with one probe and no creation call, and a re-read is served
from the cache. -/
theorem C3_session_id_read_witness :
    pyTruthyStr (none : Option String) = false ∧
    pyTruthyStr (some "abc") = true ∧
    (session_id_read none (some "abc") "fresh"
        = ⟨"abc", some "abc", 1, 0⟩ ∧
      session_id_read (session_id_read none (some "abc") "fresh").newCached
          none "other"
        = ⟨"abc", some "abc", 0, 0⟩) :=
  ⟨by decide, by decide,
   (C3_session_id_read none (some "abc") none "fresh" "other").2.1
     (by decide) (by decide)⟩

/-- C4 (confirmed): when the session-creation POST raises
EmptyResponseError, the manager queries the app run-state and re-raises the
original empty-response error exactly when the state is not the
foreground-running code; a confirmed-foreground state yields a client bound
to the query's session id instead; other outcomes never touch the
fallback. -/
theorem C4_session_empty_fallback (m u sid fsid : String) (fv : Jval)
    (e : FetchErr) (he : isWDAEmptyResponseError e = false) :
    (sessionCreateOutcome (.error (.emptyResponse m u)) fv fsid
        = (.error (.emptyResponse m u), true) ↔ jvalEqNum fv 4 = false) ∧
    (jvalEqNum fv 4 = true →
      sessionCreateOutcome (.error (.emptyResponse m u)) fv fsid
        = (.ok fsid, true)) ∧
    sessionCreateOutcome (.ok sid) fv fsid = (.ok sid, false) ∧
    sessionCreateOutcome (.error e) fv fsid = (.error e, false) := by
  refine ⟨?_, ?_, rfl, ?_⟩
  · cases h : jvalEqNum fv 4 <;> simp [sessionCreateOutcome, h]
  · intro h; simp [sessionCreateOutcome, h]
  · cases e <;> simp_all [sessionCreateOutcome, isWDAEmptyResponseError]

/-- C4 witness: a concrete empty-response creation with the app confirmed
foreground (state 4) returns the fallback session id; with any other
outcome the fallback is untouched. -/
theorem C4_session_empty_fallback_witness :
    isWDAEmptyResponseError (.badGateway 502 "bad") = false ∧
    ((sessionCreateOutcome
        (.error (.emptyResponse "POST" "http://localhost:8100/session"))
        (Jval.num 4) "fsid"
        = (.error (.emptyResponse "POST" "http://localhost:8100/session"),
           true)
      ↔ jvalEqNum (Jval.num 4) 4 = false) ∧
     (jvalEqNum (Jval.num 4) 4 = true →
       sessionCreateOutcome
         (.error (.emptyResponse "POST" "http://localhost:8100/session"))
         (Jval.num 4) "fsid" = (.ok "fsid", true)) ∧
     sessionCreateOutcome (.ok "sid") (Jval.num 4) "fsid"
       = (.ok "sid", false) ∧
     sessionCreateOutcome (.error (.badGateway 502 "bad")) (Jval.num 4)
       "fsid" = (.error (.badGateway 502 "bad"), false)) :=
  ⟨by decide,
   C4_session_empty_fallback "POST" "http://localhost:8100/session" "sid"
     "fsid" (Jval.num 4) (.badGateway 502 "bad") (by decide)⟩

/-- C5 (confirmed): on a polling tick the watcher clicks exactly the first
allow-list entry present among the queried button labels and performs no
click otherwise; with no caller-supplied list the built-in default
allow-list is used; a classified remote error during a tick is swallowed
and the loop continues; once the stop signal is set no further tick begins
(at most `k` polls are ever consumed), as in the scripted scenario where
poll 2 exposes an allow-listed button. -/
theorem C5_alert_watcher (allow bs bs2 : List String) (b : String)
    (e : FetchErr) (rest script : List (Except FetchErr (List String)))
    (k : Nat)
    (hfind : allow.find? (fun x => bs.contains x) = some b)
    (hnone : allow.find? (fun x => bs2.contains x) = none)
    (he : isWDARequestError e = true) :
    chooseButtons none = Alert.DEFAULT_ACCEPT_BUTTONS ∧
    watchTick allow (.ok bs) = .clicked b ∧
    watchTick allow (.ok bs2) = .noClick ∧
    watchRun allow (.error e :: rest) = .swallowed :: watchRun allow rest ∧
    (watchWithStop allow script k).length ≤ k ∧
    watchWithStop ["Allow"] [.ok ["X"], .ok ["X", "Allow"], .ok ["Allow"]] 2
      = [.noClick, .clicked "Allow"] := by
  refine ⟨rfl, ?_, ?_, ?_, ?_, rfl⟩
  · simp only [watchTick]
    rw [hfind]
  · simp only [watchTick]
    rw [hnone]
  · simp [watchRun, watchTick, he]
  · exact le_trans (watchRun_length_le allow (script.take k))
      (by simp [List.length_take])

/-- C5 witness: allow-list `["OK"]` against buttons `["Cancel", "OK"]`
clicks `OK`; buttons `["X"]` yield no click; a generic classified error is
swallowed. -/
theorem C5_alert_watcher_witness :
    (["OK"].find? (fun x => ["Cancel", "OK"].contains x) = some "OK") ∧
    (["OK"].find? (fun x => ["X"].contains x) = none) ∧
    isWDARequestError (.requestError .generic 110 []) = true ∧
    (chooseButtons none = Alert.DEFAULT_ACCEPT_BUTTONS ∧
     watchTick ["OK"] (.ok ["Cancel", "OK"]) = .clicked "OK" ∧
     watchTick ["OK"] (.ok ["X"]) = .noClick ∧
     watchRun ["OK"] (.error (.requestError .generic 110 []) :: [])
       = .swallowed :: watchRun ["OK"] [] ∧
     (watchWithStop ["OK"] [] 0).length ≤ 0 ∧
     watchWithStop ["Allow"] [.ok ["X"], .ok ["X", "Allow"], .ok ["Allow"]]
       2 = [.noClick, .clicked "Allow"]) :=
  ⟨by decide, by decide, by decide,
   C5_alert_watcher ["OK"] ["Cancel", "OK"] ["X"] "OK"
     (.requestError .generic 110 []) [] [] 0
     (by decide) (by decide) (by decide)⟩

/-- C6 (amended): a body that is not valid JSON makes the transport raise
the generic `WDAError` — the same exception class used for network-level
faults — so those two conditions are not distinguishable by error kind
alone; both are distinct in kind from the BadGateway and EmptyResponse
errors. -/
theorem C6_transport_error_kinds (method u msg text : String) (code : Nat)
    (hcode : code ≠ 502) (htext : pyBlank text = false) :
    fetchTransport method u (.netFail msg)
      = .error (.wdaError method u msg) ∧
    fetchTransport method u (.httpOk code text none)
      = .error (.wdaError method u (pyTake100 text ++ "...")) ∧
    errClass (.wdaError method u msg) = "WDAError" ∧
    errClass (.wdaError method u (pyTake100 text ++ "...")) = "WDAError" ∧
    errClass (.badGateway 502 text) = "WDABadGateway" ∧
    errClass (.emptyResponse method u) = "WDAEmptyResponseError" := by
  refine ⟨rfl, ?_, rfl, rfl, rfl, rfl⟩
  simp [fetchTransport, hcode, htext]

/-- C6 witness: a concrete network fault and a concrete malformed body. -/
theorem C6_transport_error_kinds_witness :
    pyBlank "<html>not json</html>" = false ∧
    (fetchTransport "GET" "http://localhost:8100/status"
        (.netFail "connection timed out")
      = .error (.wdaError "GET" "http://localhost:8100/status"
          "connection timed out") ∧
     fetchTransport "GET" "http://localhost:8100/status"
        (.httpOk 200 "<html>not json</html>" none)
      = .error (.wdaError "GET" "http://localhost:8100/status"
          (pyTake100 "<html>not json</html>" ++ "...")) ∧
     errClass (.wdaError "GET" "http://localhost:8100/status"
       "connection timed out") = "WDAError" ∧
     errClass (.wdaError "GET" "http://localhost:8100/status"
       (pyTake100 "<html>not json</html>" ++ "...")) = "WDAError" ∧
     errClass (.badGateway 502 "<html>not json</html>") = "WDABadGateway" ∧
     errClass (.emptyResponse "GET" "http://localhost:8100/status")
       = "WDAEmptyResponseError") :=
  ⟨by decide,
   C6_transport_error_kinds "GET" "http://localhost:8100/status"
     "connection timed out" "<html>not json</html>" 200
     (by decide) (by decide)⟩

/-- The exception class of a transport outcome (`"ok"` on success). -/
def fetchErrClass {α : Type} : Except FetchErr α → String
  | .error e => errClass e
  | .ok _ => "ok"

/-- C6 counterexample: the claim says malformed-JSON failures have a kind
distinct from network-fault failures so a caller can branch on kind alone;
on concrete inputs both raise the very same class `WDAError`. -/
theorem C6_same_class_counterexample :
    fetchErrClass (fetchTransport "GET" "http://localhost:8100/status"
      (.netFail "connection timed out")) = "WDAError" ∧
    fetchErrClass (fetchTransport "GET" "http://localhost:8100/status"
      (.httpOk 200 "<html>not json</html>" none)) = "WDAError" := by
  exact ⟨rfl, rfl⟩

/-- C7 (confirmed): `close()` targets the session-scoped root URL with its
DELETE and swallows InvalidSessionId and PossiblyCrashed errors (returning
normally), while every other error kind — classified or not — is re-raised
unchanged. -/
theorem C7_close_swallow (v val : List (String × Jval)) (k : ErrKind)
    (s : Int) (e : FetchErr) (wdaUrl sid : String)
    (hk1 : k ≠ .invalidSessionId) (hk2 : k ≠ .possiblyCrashed)
    (he : isWDARequestError e = false) :
    sessionRequestUrl wdaUrl sid "" = wdaUrl ++ ("session/" ++ sid ++ "/") ∧
    close (.ok v) = .ok (some v) ∧
    close (.error (.requestError .invalidSessionId s val)) = .ok none ∧
    close (.error (.requestError .possiblyCrashed s val)) = .ok none ∧
    close (.error (.requestError k s val))
      = .error (.requestError k s val) ∧
    close (.error e) = .error e := by
  refine ⟨?_, rfl, by simp [close], by simp [close], ?_, ?_⟩
  · have hne : ¬("session/" ++ sid ++ "/" = "") := by
      intro hcontra
      have hlen := congrArg String.length hcontra
      simp [String.length_append] at hlen
      have h1 : ("/" : String).length = 1 := rfl
      omega
    simp [sessionRequestUrl, urljoinRel, hne]
  · simp [close, hk1, hk2]
  · cases e <;> simp_all [close, isWDARequestError]

/-- C7 witness: a StaleElementReference error and an EmptyResponse error
from the DELETE are re-raised; the swallowed kinds return normally. -/
theorem C7_close_swallow_witness :
    (ErrKind.staleElementReference ≠ ErrKind.invalidSessionId) ∧
    (ErrKind.staleElementReference ≠ ErrKind.possiblyCrashed) ∧
    isWDARequestError (.emptyResponse "DELETE" "u") = false ∧
    (sessionRequestUrl "http://localhost:8100/" "S1" ""
       = "http://localhost:8100/" ++ ("session/" ++ "S1" ++ "/") ∧
     close (.ok []) = .ok (some []) ∧
     close (.error (.requestError .invalidSessionId 110 [])) = .ok none ∧
     close (.error (.requestError .possiblyCrashed 110 [])) = .ok none ∧
     close (.error (.requestError .staleElementReference 110 []))
       = .error (.requestError .staleElementReference 110 []) ∧
     close (.error (.emptyResponse "DELETE" "u"))
       = .error (.emptyResponse "DELETE" "u")) :=
  ⟨by decide, by decide, by decide,
   C7_close_swallow [] [] .staleElementReference 110
     (.emptyResponse "DELETE" "u") "http://localhost:8100/" "S1"
     (by decide) (by decide) (by decide)⟩

/-- Appending the separator makes the url end with it. -/
theorem pyEndsWithSlash_append (u : String) :
    pyEndsWithSlash (u ++ "/") = true := by
  have hd : (u ++ "/").data = u.data ++ ['/'] := by
    simp [String.data_append]
  simp [pyEndsWithSlash, hd, List.getLast?_concat]

/-- C8 (confirmed): a client built from a base url without the trailing
separator derives exactly the same base-scoped and session-scoped request
URLs as one built from the url with the separator appended — the
normalization is idempotent. -/
theorem C8_url_normalization (u urlpath sid : String)
    (h : pyEndsWithSlash u = false) :
    wdaUrlOf u = wdaUrlOf (u ++ "/") ∧
    requestUrl (wdaUrlOf u) urlpath
      = requestUrl (wdaUrlOf (u ++ "/")) urlpath ∧
    sessionRequestUrl (wdaUrlOf u) sid urlpath
      = sessionRequestUrl (wdaUrlOf (u ++ "/")) sid urlpath := by
  have hn : wdaUrlOf u = u ++ "/" := by simp [wdaUrlOf, h]
  have hp : wdaUrlOf (u ++ "/") = u ++ "/" := by
    simp [wdaUrlOf, pyEndsWithSlash_append]
  refine ⟨hn.trans hp.symm, ?_, ?_⟩ <;> rw [hn, hp]

/-- C8 witness: the base `http://localhost:8100` with and without the
trailing separator. -/
theorem C8_url_normalization_witness :
    pyEndsWithSlash "http://localhost:8100" = false ∧
    (wdaUrlOf "http://localhost:8100"
       = wdaUrlOf ("http://localhost:8100" ++ "/") ∧
     requestUrl (wdaUrlOf "http://localhost:8100") "status"
       = requestUrl (wdaUrlOf ("http://localhost:8100" ++ "/")) "status" ∧
     sessionRequestUrl (wdaUrlOf "http://localhost:8100") "S1" "status"
       = sessionRequestUrl (wdaUrlOf ("http://localhost:8100" ++ "/")) "S1"
           "status") :=
  ⟨by decide,
   C8_url_normalization "http://localhost:8100" "status" "S1" (by decide)⟩

/-- C9 (amended): the client carries a callback registry — created empty at
construction and shared with clients returned by `session()` — and defines
the before/after/error event names, but the request pipeline `_fetch` never
reads the registry: no handler is ever invoked during a request, whatever
is registered and however the exchange goes. -/
theorem C9_callbacks_never_invoked (registry : List (String × List String))
    (r : RawResponse) (handlerName : String) :
    initialCallbacks = [] ∧
    sessionClientCallbacks registry = registry ∧
    fetchCallbackInvocations registry r = [] ∧
    handlerName ∉ fetchCallbackInvocations registry r := by
  refine ⟨rfl, rfl, rfl, ?_⟩
  simp [fetchCallbackInvocations]

/-- C9 counterexample: the claim says handlers registered under the
before-request, after-request and on-error event names are invoked on
every request; a handler registered under all three names is never invoked
during a successfully executed request. -/
theorem C9_registered_not_invoked_counterexample :
    fetchCallbackInvocations
      [(Callback.HTTP_REQUEST_BEFORE, ["observer"]),
       (Callback.HTTP_REQUEST_AFTER, ["observer"]),
       (Callback.ERROR, ["observer"])]
      (.httpOk 200 "{}" (some [("value", Jval.str "ok")])) = [] ∧
    "observer" ∉ fetchCallbackInvocations
      [(Callback.HTTP_REQUEST_BEFORE, ["observer"]),
       (Callback.HTTP_REQUEST_AFTER, ["observer"]),
       (Callback.ERROR, ["observer"])]
      (.httpOk 200 "{}" (some [("value", Jval.str "ok")])) := by
  exact ⟨rfl, by simp [fetchCallbackInvocations]⟩

/-- Method `BaseClient.__exit__` (`wda/__init__.py` lines 508-509): the
context-manager exit simply calls `close()`, hence runs the same flow. -/
def clientExit (cached probeSid : Option String) (createdId wdaUrl : String)
    (deleteResult : Except FetchErr (List (String × Jval))) :
    SessionIdRead × String ×
      Except FetchErr (Option (List (String × Jval))) :=
  closeFlow cached probeSid createdId wdaUrl deleteResult

/-- C10 (confirmed): closing a client with no bound session id — also via
context-manager exit — is not a no-op: resolving the `session_id` property
for the DELETE path issues one status probe and, when the remote reports no
session, one session-creation call, and the DELETE then targets the freshly
created session's root. -/
theorem C10_close_unbound_creates_session (probeSid : Option String)
    (createdId wdaUrl : String)
    (deleteResult : Except FetchErr (List (String × Jval)))
    (hprobe : pyTruthyStr probeSid = false) :
    (closeFlow none probeSid createdId wdaUrl deleteResult).1
      = ⟨createdId, none, 1, 1⟩ ∧
    (closeFlow none probeSid createdId wdaUrl deleteResult).2.1
      = wdaUrl ++ ("session/" ++ createdId ++ "/") ∧
    clientExit none probeSid createdId wdaUrl deleteResult
      = closeFlow none probeSid createdId wdaUrl deleteResult := by
  have hne : ¬("session/" ++ createdId ++ "/" = "") := by
    intro hcontra
    have hlen := congrArg String.length hcontra
    simp [String.length_append] at hlen
    have h1 : ("/" : String).length = 1 := rfl
    omega
  have hcached : pyTruthyStr none = false := rfl
  refine ⟨?_, ?_, rfl⟩ <;>
    simp [closeFlow, session_id_read, hcached, hprobe,
      sessionRequestUrl, urljoinRel, hne]

/-- C10 witness: an unbound client whose probe reports no session id
creates session `"NEW"` and DELETEs `session/NEW/`. -/
theorem C10_close_unbound_creates_session_witness :
    pyTruthyStr (none : Option String) = false ∧
    ((closeFlow none none "NEW" "http://localhost:8100/" (.ok [])).1
       = ⟨"NEW", none, 1, 1⟩ ∧
     (closeFlow none none "NEW" "http://localhost:8100/" (.ok [])).2.1
       = "http://localhost:8100/" ++ ("session/" ++ "NEW" ++ "/") ∧
     clientExit none none "NEW" "http://localhost:8100/" (.ok [])
       = closeFlow none none "NEW" "http://localhost:8100/" (.ok [])) :=
  ⟨by decide,
   C10_close_unbound_creates_session none "NEW" "http://localhost:8100/"
     (.ok []) (by decide)⟩

end Wda
